import Mathlib

/-!
Verification of the change-detection and synchronization engine of
`sync.py` (auto-sync-releases): a shallow embedding of its data model
and operations, plus theorems settling the frozen claims about it.

Modelling conventions:
* The target directory is an association list from entry names to
  filesystem entries (`TargetDir`); the ledger file `.version.json` is
  one such entry whose parsed content is a `VersionInfo`.
* Network effects are injected: HTTP responses are `Response` values,
  per-URL binary download success is a function `String → Bool`.
* Python exceptions are `Except.error`; fallible steps return
  `Except String _`.
* `datetime.fromisoformat` is modelled on the Z-suffixed UTC wire
  format used by the GitHub API (after the code's replacement of the
  suffix `Z` by `+00:00`), i.e. strings of shape
  `YYYY-MM-DDTHH:MM:SS+00:00`; Python compares two such values
  field-lexicographically, which `dtLt` reproduces.
* `re.match` is modelled for the regex fragment the conversion
  `pattern.replace` with a star actually produces: literal characters,
  the any-character atom written as a dot, and a postfix star.
-/

/-- Name of the per-directory ledger file, `get_version_info_path` in the source. -/
def version_file_name : String := ".version.json"

/-- Diagnostic for a response body that is not valid JSON (requests raises JSONDecodeError). -/
def errJSONDecode : String := "JSONDecodeError"

/-- Diagnostic for an unparsable timestamp (datetime.fromisoformat raises ValueError). -/
def errValueError : String := "ValueError"

/-- Diagnostic for a missing dictionary key (Python raises KeyError). -/
def errKeyError : String := "KeyError"

/-- Diagnostic for opening a directory as a file (Python raises IsADirectoryError). -/
def errIsADir : String := "IsADirectoryError"

/-- The project `type` value selecting the release path. -/
def typeRelease : String := "release"

/-- The project `type` value selecting the action path. -/
def typeAction : String := "action"

/-- Default asset pattern list used by the source when none is configured. -/
def default_patterns : List String := [".*"]

/-! ## Upstream data shapes -/

/-- One release asset as returned by the GitHub releases endpoint. -/
structure Asset where
  name : String
  size : Nat
  browser_download_url : String
deriving DecidableEq

/-- A release as returned by the GitHub releases endpoints. -/
structure Release where
  tag_name : String
  published_at : String
  assets : List Asset
deriving DecidableEq

/-- One artifact of a workflow run. -/
structure Artifact where
  name : String
  size_in_bytes : Nat
  archive_download_url : String
deriving DecidableEq

/-- One workflow run record from the runs listing endpoint. -/
structure WorkflowRun where
  id : Nat
  run_number : Nat
  created_at : String
  updated_at : String
  html_url : String
  name : String
  artifacts_url : String
deriving DecidableEq

/-- The normalized action candidate built by `get_latest_action_artifact`. -/
structure ActionInfo where
  id : Nat
  run_number : Nat
  created_at : String
  updated_at : String
  artifacts : List Artifact
  workflow_name : String
deriving DecidableEq

/-- The `latest_info` argument of `needs_update`: either a release dict or an action dict. -/
inductive Latest
  | release (r : Release)
  | action (a : ActionInfo)
deriving DecidableEq

/-- The `info_type` argument of `needs_update` and `save_version_info`. -/
inductive InfoType
  | release
  | action
deriving DecidableEq

/-! ## Pattern matcher (`should_download_asset`) -/

/-- A regex atom: the any-character atom (a dot in the pattern) or a literal character. -/
inductive RAtom
  | any
  | lit (c : Char)
deriving DecidableEq

/-- A regex piece: a single atom, or an atom under a postfix star. -/
inductive RPiece
  | once (a : RAtom)
  | star (a : RAtom)
deriving DecidableEq

/-- Whether an atom matches one character. -/
def atomMatch : RAtom → Char → Bool
  | RAtom.any, _ => true
  | RAtom.lit c, d => decide (c = d)

/-- The character-by-character replacement performed by the source on each
pattern: every star character becomes a dot followed by a star
(Python str.replace with a one-character needle). -/
def replaceStar : List Char → List Char
  | [] => []
  | c :: rest => if c = '*' then '.' :: '*' :: replaceStar rest else c :: replaceStar rest

/-- The atom denoted by one pattern character: a dot is the any-character atom,
anything else is a literal. -/
def charAtom (c : Char) : RAtom :=
  if c = '.' then RAtom.any else RAtom.lit c

/-- Parse a regex of the fragment produced by `replaceStar`: an atom optionally
followed by a postfix star. -/
def parseRegex : List Char → List RPiece
  | [] => []
  | [c] => [RPiece.once (charAtom c)]
  | c :: c2 :: rest =>
    if c2 = '*' then RPiece.star (charAtom c) :: parseRegex rest
    else RPiece.once (charAtom c) :: parseRegex (c2 :: rest)

/-- The suffixes reachable from a string by consuming zero or more characters
that the given atom matches. -/
def starReach (a : RAtom) : List Char → List (List Char)
  | [] => [[]]
  | c :: r => (c :: r) :: (if atomMatch a c then starReach a r else [])

/-- Regex matching anchored at the start of the string only (Python re.match):
the match succeeds as soon as every piece is consumed, whatever remains of
the string. -/
def rmatch : List RPiece → List Char → Bool
  | [], _ => true
  | RPiece.once a :: ps, s =>
    match s with
    | [] => false
    | c :: r => atomMatch a c && rmatch ps r
  | RPiece.star a :: ps, s => (starReach a s).any (fun r => rmatch ps r)

/-- The source's `should_download_asset`: a name is selected when some pattern,
taken as a regex after the star replacement, matches at the start of the name.
The source's for-loop with an early return is the disjunction over the list.
The embedding is faithful on plain patterns (see `plainPattern`): built from
literal characters, the dot and the star only. A pattern holding another
regex metacharacter (a plus, a bar, brackets, ...) gets its full Python
regex meaning in the code — or raises re.error when invalid — which this
model does not reproduce: such patterns are outside the modelled domain,
and theorems about the matcher are scoped to plain patterns. -/
def should_download_asset (asset_name : String) (patterns : List String) : Bool :=
  patterns.any (fun pattern => rmatch (parseRegex (replaceStar pattern.toList)) asset_name.toList)

/-- A parsed timestamp, as the fields of a Python datetime (UTC offset). -/
structure PyDateTime where
  year : Nat
  month : Nat
  day : Nat
  hour : Nat
  minute : Nat
  second : Nat
deriving DecidableEq

/-- Python datetime comparison for two values carrying the same offset:
field-lexicographic, which on a common UTC offset is exactly the order of
the absolute instants the values denote. -/
def dtLt (a b : PyDateTime) : Bool :=
  if a.year < b.year then true else if b.year < a.year then false
  else if a.month < b.month then true else if b.month < a.month then false
  else if a.day < b.day then true else if b.day < a.day then false
  else if a.hour < b.hour then true else if b.hour < a.hour then false
  else if a.minute < b.minute then true else if b.minute < a.minute then false
  else decide (a.second < b.second)

/-- Numeric value of a decimal digit character. -/
def digitVal (c : Char) : Nat := c.toNat - 48

/-- Two-digit decimal number. -/
def num2 (a b : Char) : Nat := 10 * digitVal a + digitVal b

/-- Four-digit decimal number. -/
def num4 (a b c d : Char) : Nat :=
  1000 * digitVal a + 100 * digitVal b + 10 * digitVal c + digitVal d

/-- The replacement of the suffix letter Z by the offset `+00:00` that the
source applies before parsing (Python str.replace with a one-character needle). -/
def pyReplaceZ : List Char → List Char
  | [] => []
  | c :: rest =>
    if c = 'Z' then '+' :: '0' :: '0' :: ':' :: '0' :: '0' :: pyReplaceZ rest
    else c :: pyReplaceZ rest

/-- Model of `datetime.fromisoformat` restricted to the UTC wire shape the
system exchanges, `YYYY-MM-DDTHH:MM:SS+00:00`; any other shape is rejected
(the real function raises ValueError there or on non-digit fields). -/
def fromisoformatUTC (cs : List Char) : Option PyDateTime :=
  match cs with
  | [y1, y2, y3, y4, '-', m1, m2, '-', d1, d2, 'T',
     h1, h2, ':', i1, i2, ':', s1, s2, '+', '0', '0', ':', '0', '0'] =>
    if y1.isDigit && y2.isDigit && y3.isDigit && y4.isDigit &&
       m1.isDigit && m2.isDigit && d1.isDigit && d2.isDigit &&
       h1.isDigit && h2.isDigit && i1.isDigit && i2.isDigit &&
       s1.isDigit && s2.isDigit then
      some ⟨num4 y1 y2 y3 y4, num2 m1 m2, num2 d1 d2, num2 h1 h2, num2 i1 i2, num2 s1 s2⟩
    else none
  | _ => none

/-! ## Version ledger and local filesystem state -/

/-- Snapshot of one downloaded file recorded in the ledger. -/
structure SavedFile where
  name : String
  size : Nat
  download_url : String
deriving DecidableEq

/-- Content of a `.version.json` ledger file, `save_version_info`'s two dict
shapes as a tagged union; the `type` key is the constructor. The informational
`sync_time` field (wall-clock at save time, never read back) is not modelled. -/
inductive VersionInfo
  | release (tag_name : String) (published_at : String) (assets : List SavedFile)
  | action (run_id : Nat) (run_number : Nat) (created_at : String)
      (workflow_name : String) (artifacts : List SavedFile)
deriving DecidableEq

/-- The `type` tag stored in a ledger. -/
def infoTypeOf : VersionInfo → InfoType
  | VersionInfo.release _ _ _ => InfoType.release
  | VersionInfo.action _ _ _ _ _ => InfoType.action

/-- Content of one file directly under the target directory: either a parseable
ledger, or opaque downloaded bytes (recorded as their source URL). -/
inductive FileData
  | versionJson (v : VersionInfo)
  | blob (src : String)
deriving DecidableEq

/-- One entry directly under the target directory. -/
inductive FsEntry
  | file (data : FileData)
  | dir
deriving DecidableEq

/-- The state of the target directory: its entries, as an association list
from entry name to entry, in listing order. -/
abbrev TargetDir := List (String × FsEntry)

/-- Look up the entry of a given name (absence models a failing os.path.exists). -/
def lookupEntry : TargetDir → String → Option FsEntry
  | [], _ => none
  | (k, v) :: rest, n => if k = n then some v else lookupEntry rest n

/-- Create or truncate-and-overwrite the entry of a given name (open for writing). -/
def setEntry : TargetDir → String → FsEntry → TargetDir
  | [], n, e => [(n, e)]
  | (k, v) :: rest, n, e => if k = n then (n, e) :: rest else (k, v) :: setEntry rest n e

/-- The directory reset loop of the sync functions: every entry whose name is
not the ledger's is removed (files directly, directories recursively); only
the ledger file survives. -/
def clear_dir : TargetDir → TargetDir
  | [] => []
  | (k, v) :: rest => if k = version_file_name then (k, v) :: clear_dir rest else clear_dir rest

/-- Read the ledger: `none` when the file does not exist, an error when the
entry cannot be loaded as JSON (a directory or opaque bytes), the parsed
`VersionInfo` otherwise. -/
def get_version_info (d : TargetDir) : Option (Except String VersionInfo) :=
  match lookupEntry d version_file_name with
  | none => none
  | some (FsEntry.file (FileData.versionJson v)) => some (Except.ok v)
  | some (FsEntry.file (FileData.blob _)) => some (Except.error errJSONDecode)
  | some FsEntry.dir => some (Except.error errIsADir)

/-- The ledger written for a release candidate (`save_version_info`, release shape). -/
def mk_release_version_info (rel : Release) : VersionInfo :=
  VersionInfo.release rel.tag_name rel.published_at
    (rel.assets.map (fun a => SavedFile.mk a.name a.size a.browser_download_url))

/-- The ledger written for an action candidate (`save_version_info`, action shape). -/
def mk_action_version_info (a : ActionInfo) : VersionInfo :=
  VersionInfo.action a.id a.run_number a.created_at a.workflow_name
    (a.artifacts.map (fun x => SavedFile.mk x.name x.size_in_bytes x.archive_download_url))

/-- Serialize a ledger into the directory, fully overwriting any prior one. -/
def save_version_info (d : TargetDir) (v : VersionInfo) : TargetDir :=
  setEntry d version_file_name (FsEntry.file (FileData.versionJson v))

/-- The source's `needs_update`: true when no ledger exists; true when the
stored type differs from the requested one; for releases, true exactly when
the candidate's publish instant is strictly later than the stored one (both
parsed after the Z replacement, an unparsable one raising ValueError); for
actions, true exactly when the run identifiers differ. -/
def needs_update (d : TargetDir) (latest : Latest) (info_type : InfoType) :
    Except String Bool :=
  match get_version_info d with
  | none => Except.ok true
  | some (Except.error e) => Except.error e
  | some (Except.ok cur) =>
    if infoTypeOf cur ≠ info_type then Except.ok true
    else
      match info_type with
      | InfoType.release =>
        match cur, latest with
        | VersionInfo.release _ curPub _, Latest.release rel =>
          match fromisoformatUTC (pyReplaceZ curPub.toList),
                fromisoformatUTC (pyReplaceZ rel.published_at.toList) with
          | some ct, some lt => Except.ok (dtLt ct lt)
          | _, _ => Except.error errValueError
        | _, _ => Except.error errKeyError
      | InfoType.action =>
        match cur, latest with
        | VersionInfo.action curId _ _ _ _, Latest.action a =>
          Except.ok (decide (curId ≠ a.id))
        | _, _ => Except.error errKeyError

/-! ## Sync executor -/

/-- The update guard of both sync functions: `needs_update` is consulted only
when the ledger file already exists; a missing ledger file proceeds directly. -/
def sync_guard (d : TargetDir) (latest : Latest) (t : InfoType) : Except String Bool :=
  if (lookupEntry d version_file_name).isSome then needs_update d latest t
  else Except.ok true

/-- The release download loop: each asset in listing order is matched against
the patterns; a selected asset whose download succeeds is written under its
own name and counted; a failed download is skipped and the loop continues.
Returns the directory and the count of successful downloads. -/
def release_download_pass (dl : String → Bool) (patterns : List String) :
    List Asset → TargetDir → TargetDir × Nat
  | [], d => (d, 0)
  | a :: rest, d =>
    if should_download_asset a.name patterns then
      if dl a.browser_download_url then
        let res := release_download_pass dl patterns rest
          (setEntry d a.name (FsEntry.file (FileData.blob a.browser_download_url)))
        (res.1, res.2 + 1)
      else release_download_pass dl patterns rest d
    else release_download_pass dl patterns rest d

/-- The saved name of an artifact: a missing `.zip` suffix (case-insensitive)
is appended, an existing one leaves the name unchanged. -/
def final_artifact_name (n : String) : String :=
  if ['.', 'z', 'i', 'p'].isSuffixOf (n.toList.map Char.toLower) then n
  else n ++ ".zip"

/-- The action download loop: like the release one, but each selected artifact
is written under its computed zip name. -/
def action_download_pass (dl : String → Bool) (patterns : List String) :
    List Artifact → TargetDir → TargetDir × Nat
  | [], d => (d, 0)
  | a :: rest, d =>
    if should_download_asset a.name patterns then
      if dl a.archive_download_url then
        let res := action_download_pass dl patterns rest
          (setEntry d (final_artifact_name a.name) (FsEntry.file (FileData.blob a.archive_download_url)))
        (res.1, res.2 + 1)
      else action_download_pass dl patterns rest d
    else action_download_pass dl patterns rest d

/-- The source's `sync_release_project`, with the adapter's result and per-URL
download success injected. An absent candidate is Unchanged; a false guard is
Unchanged with the directory untouched; otherwise the directory is reset, the
download pass runs, the new ledger is saved and the sync is Changed. A raised
guard error propagates. The directory itself is created outside the returned
state (os.makedirs is a no-op on the modelled entry list). -/
def sync_release_project (fetch : Except String (Option Release)) (dl : String → Bool)
    (patterns : List String) (d : TargetDir) : Except String (Bool × TargetDir) :=
  match fetch with
  | Except.error e => Except.error e
  | Except.ok none => Except.ok (false, d)
  | Except.ok (some rel) =>
    match sync_guard d (Latest.release rel) InfoType.release with
    | Except.error e => Except.error e
    | Except.ok false => Except.ok (false, d)
    | Except.ok true =>
      let passed := release_download_pass dl patterns rel.assets (clear_dir d)
      Except.ok (true, save_version_info passed.1 (mk_release_version_info rel))

/-- The source's `sync_action_project`, mirrored from the release one with the
zip renaming in the download pass. -/
def sync_action_project (fetch : Except String (Option ActionInfo)) (dl : String → Bool)
    (patterns : List String) (d : TargetDir) : Except String (Bool × TargetDir) :=
  match fetch with
  | Except.error e => Except.error e
  | Except.ok none => Except.ok (false, d)
  | Except.ok (some info) =>
    match sync_guard d (Latest.action info) InfoType.action with
    | Except.error e => Except.error e
    | Except.ok false => Except.ok (false, d)
    | Except.ok true =>
      let passed := action_download_pass dl patterns info.artifacts (clear_dir d)
      Except.ok (true, save_version_info passed.1 (mk_action_version_info info))

/-! ## Upstream query adapter -/

/-- An HTTP response with a typed body; `none` stands for a body that is not
valid JSON of the expected shape, on which Python's response.json() raises. -/
structure Response (α : Type) where
  status_code : Nat
  body : Option α

/-- Python's response.json(): the parsed body, or a raised JSONDecodeError. -/
def response_json {α : Type} (r : Response α) : Except String α :=
  match r.body with
  | some b => Except.ok b
  | none => Except.error errJSONDecode

/-- The source's `get_latest_release`, with the two endpoint responses
injected: with prereleases the full list is fetched and its first entry
taken; otherwise the single latest-stable resource is fetched. A non-success
status or an empty list yields no candidate with a printed diagnostic; a
malformed body raises. -/
def get_latest_release (resp_releases : Response (List Release))
    (resp_latest : Response Release) (include_prerelease : Bool) :
    Except String (Option Release) :=
  if include_prerelease then
    if resp_releases.status_code = 200 then
      match response_json resp_releases with
      | Except.error e => Except.error e
      | Except.ok rs =>
        match rs with
        | r :: _ => Except.ok (some r)
        | [] => Except.ok none
    else Except.ok none
  else
    if resp_latest.status_code = 200 then
      match response_json resp_latest with
      | Except.error e => Except.error e
      | Except.ok r => Except.ok (some r)
    else Except.ok none

/-- The query parameters the source sends to the workflow-runs endpoint. -/
structure RunsParams where
  status : String
  per_page : Nat
  event : Option String
deriving DecidableEq

/-- Construction of the runs query parameters: always completed runs, five per
page; when a workflow filename is supplied, the event parameter is set to
push — the filename's value itself is never sent. -/
def runs_params (workflow_filename : Option String) : RunsParams :=
  RunsParams.mk "completed" 5 (if workflow_filename.isSome then some "push" else none)

/-- The upstream service as seen by the action adapter: the runs listing keyed
by the query parameters, and each run's artifact listing keyed by its URL. -/
structure Upstream where
  runs_response : RunsParams → Response (List WorkflowRun)
  artifacts_response : String → Response (List Artifact)

/-- The source's `get_latest_action_artifact`: fetch the recent completed runs
(the body's missing-key case is folded into an empty list), take the first,
fetch its artifact list, and normalize; any non-success status or empty list
yields no candidate, a malformed body raises. -/
def get_latest_action_artifact (up : Upstream) (workflow_filename : Option String) :
    Except String (Option ActionInfo) :=
  let resp := up.runs_response (runs_params workflow_filename)
  if resp.status_code ≠ 200 then Except.ok none
  else
    match response_json resp with
    | Except.error e => Except.error e
    | Except.ok runs =>
      match runs with
      | [] => Except.ok none
      | latest_run :: _ =>
        let aresp := up.artifacts_response latest_run.artifacts_url
        if aresp.status_code ≠ 200 then Except.ok none
        else
          match response_json aresp with
          | Except.error e => Except.error e
          | Except.ok artifacts =>
            if artifacts = [] then Except.ok none
            else Except.ok (some (ActionInfo.mk latest_run.id latest_run.run_number
              latest_run.created_at latest_run.updated_at artifacts latest_run.name))

/-! ## Batch driver -/

/-- The configured fields of one project that the dispatch and sync read. -/
structure ProjectConfig where
  name : String
  type_opt : Option String
  asset_patterns : Option (List String)

/-- One project together with its injected environment: the two adapter
outcomes, the per-URL download success, and its target directory state. -/
structure ProjectState where
  cfg : ProjectConfig
  fetch_release : Except String (Option Release)
  fetch_action : Except String (Option ActionInfo)
  dl : String → Bool
  dir : TargetDir

/-- The source's `sync_project`: dispatch on the configured type, which
defaults to release; an unknown type is reported and treated as Unchanged. -/
def sync_project (p : ProjectState) : Except String (Bool × TargetDir) :=
  let t := p.cfg.type_opt.getD typeRelease
  if t = typeRelease then
    sync_release_project p.fetch_release p.dl (p.cfg.asset_patterns.getD default_patterns) p.dir
  else if t = typeAction then
    sync_action_project p.fetch_action p.dl (p.cfg.asset_patterns.getD default_patterns) p.dir
  else Except.ok (false, p.dir)

/-- The main loop's accumulation of names of changed projects: a raised
per-project exception is caught, logged and skipped, and the loop continues. -/
def batch_updated : List ProjectState → List String
  | [] => []
  | p :: rest =>
    match sync_project p with
    | Except.ok (true, _) => p.cfg.name :: batch_updated rest
    | Except.ok (false, _) => batch_updated rest
    | Except.error _ => batch_updated rest

/-- The process exit status: zero when no project changed, one otherwise
(main returns whether the updated list is non-empty and the caller exits
with 1 exactly then). -/
def main_exit (ps : List ProjectState) : Nat :=
  if batch_updated ps = [] then 0 else 1

/-! ## Helper lemmas -/

/-- Looking up the name just written finds exactly what was written. -/
theorem lookup_setEntry_self (d : TargetDir) (n : String) (e : FsEntry) :
    lookupEntry (setEntry d n e) n = some e := by
  induction d with
  | nil => simp [setEntry, lookupEntry]
  | cons hd rest ih =>
    obtain ⟨k, v⟩ := hd
    by_cases h : k = n
    · simp [setEntry, lookupEntry, h]
    · simp [setEntry, lookupEntry, h, ih]

/-- Reading the ledger right after saving it yields the saved value. -/
theorem get_version_info_save (d : TargetDir) (v : VersionInfo) :
    get_version_info (save_version_info d v) = some (Except.ok v) := by
  simp [get_version_info, save_version_info, lookup_setEntry_self]

/-- The directory reset preserves the ledger entry exactly. -/
theorem lookup_clear_dir_ledger (d : TargetDir) :
    lookupEntry (clear_dir d) version_file_name = lookupEntry d version_file_name := by
  induction d with
  | nil => simp [clear_dir]
  | cons hd rest ih =>
    obtain ⟨k, v⟩ := hd
    by_cases h : k = version_file_name
    · simp [clear_dir, lookupEntry, h]
    · simp [clear_dir, lookupEntry, h, ih]

/-- The directory reset removes every entry other than the ledger. -/
theorem lookup_clear_dir_other (d : TargetDir) (n : String) (h : n ≠ version_file_name) :
    lookupEntry (clear_dir d) n = none := by
  induction d with
  | nil => simp [clear_dir, lookupEntry]
  | cons hd rest ih =>
    obtain ⟨k, v⟩ := hd
    by_cases hk : k = version_file_name
    · subst hk
      have hne : version_file_name ≠ n := fun he => h he.symm
      simp [clear_dir, lookupEntry, hne, ih]
    · simp [clear_dir, hk, ih]

/-- The datetime order is irreflexive: equal instants never compare as later. -/
theorem dtLt_irrefl (t : PyDateTime) : dtLt t t = false := by
  simp [dtLt]

/-- The guard passes when no ledger file exists or `needs_update` said true. -/
theorem sync_guard_true_of (d : TargetDir) (latest : Latest) (t : InfoType)
    (h : lookupEntry d version_file_name = none ∨ needs_update d latest t = Except.ok true) :
    sync_guard d latest t = Except.ok true := by
  rcases h with h | h
  · simp [sync_guard, h]
  · by_cases hs : (lookupEntry d version_file_name).isSome
    · simp [sync_guard, hs, h]
    · simp [sync_guard, hs]

/-- The release download loop counts exactly the selected assets whose
download succeeds, over the whole asset list: an individual failure is
skipped without aborting the remaining assets. -/
theorem release_pass_count (dl : String → Bool) (patterns : List String) :
    ∀ (xs : List Asset) (d : TargetDir),
      (release_download_pass dl patterns xs d).2 =
        (xs.filter (fun a => should_download_asset a.name patterns &&
          dl a.browser_download_url)).length := by
  intro xs
  induction xs with
  | nil => intro d; simp [release_download_pass]
  | cons a rest ih =>
    intro d
    by_cases h1 : should_download_asset a.name patterns
    · by_cases h2 : dl a.browser_download_url
      · simp [release_download_pass, h1, h2, List.filter_cons, ih]
      · simp [release_download_pass, h1, h2, List.filter_cons, ih]
    · simp [release_download_pass, h1, List.filter_cons, ih]

/-- Action analogue of `release_pass_count`. -/
theorem action_pass_count (dl : String → Bool) (patterns : List String) :
    ∀ (xs : List Artifact) (d : TargetDir),
      (action_download_pass dl patterns xs d).2 =
        (xs.filter (fun a => should_download_asset a.name patterns &&
          dl a.archive_download_url)).length := by
  intro xs
  induction xs with
  | nil => intro d; simp [action_download_pass]
  | cons a rest ih =>
    intro d
    by_cases h1 : should_download_asset a.name patterns
    · by_cases h2 : dl a.archive_download_url
      · simp [action_download_pass, h1, h2, List.filter_cons, ih]
      · simp [action_download_pass, h1, h2, List.filter_cons, ih]
    · simp [action_download_pass, h1, List.filter_cons, ih]

/-- When no asset is selected by the patterns the release loop writes nothing
and downloads nothing. -/
theorem release_pass_nomatch (dl : String → Bool) (patterns : List String) :
    ∀ (xs : List Asset) (d : TargetDir),
      (∀ a ∈ xs, should_download_asset a.name patterns = false) →
      release_download_pass dl patterns xs d = (d, 0) := by
  intro xs
  induction xs with
  | nil => intro d _; simp [release_download_pass]
  | cons a rest ih =>
    intro d h
    have ha : should_download_asset a.name patterns = false := h a (by simp)
    have hrest : ∀ b ∈ rest, should_download_asset b.name patterns = false :=
      fun b hb => h b (by simp [hb])
    simp [release_download_pass, ha, ih d hrest]

/-- Action analogue of `release_pass_nomatch`. -/
theorem action_pass_nomatch (dl : String → Bool) (patterns : List String) :
    ∀ (xs : List Artifact) (d : TargetDir),
      (∀ a ∈ xs, should_download_asset a.name patterns = false) →
      action_download_pass dl patterns xs d = (d, 0) := by
  intro xs
  induction xs with
  | nil => intro d _; simp [action_download_pass]
  | cons a rest ih =>
    intro d h
    have ha : should_download_asset a.name patterns = false := h a (by simp)
    have hrest : ∀ b ∈ rest, should_download_asset b.name patterns = false :=
      fun b hb => h b (by simp [hb])
    simp [action_download_pass, ha, ih d hrest]

/-- C1: `needs_update` returns true when no ledger file exists at the target
directory; returns true when the stored kind differs from the current kind;
and for the release kind with a matching ledger present, returns true exactly
when the candidate's publish timestamp, parsed as a Z-suffixed UTC instant,
is strictly later than the stored one — equal instants never trigger. -/
theorem needs_update_release_spec :
    (∀ (d : TargetDir) (latest : Latest) (t : InfoType),
        lookupEntry d version_file_name = none →
        needs_update d latest t = Except.ok true) ∧
    (∀ (d : TargetDir) (cur : VersionInfo) (latest : Latest) (t : InfoType),
        get_version_info d = some (Except.ok cur) → infoTypeOf cur ≠ t →
        needs_update d latest t = Except.ok true) ∧
    (∀ (d : TargetDir) (tag curPub : String) (saved : List SavedFile) (rel : Release)
        (ct lt : PyDateTime),
        lookupEntry d version_file_name =
          some (FsEntry.file (FileData.versionJson (VersionInfo.release tag curPub saved))) →
        fromisoformatUTC (pyReplaceZ curPub.toList) = some ct →
        fromisoformatUTC (pyReplaceZ rel.published_at.toList) = some lt →
        (needs_update d (Latest.release rel) InfoType.release = Except.ok true ↔
          dtLt ct lt = true)) ∧
    (∀ (d : TargetDir) (tag curPub : String) (saved : List SavedFile) (rel : Release)
        (ct : PyDateTime),
        lookupEntry d version_file_name =
          some (FsEntry.file (FileData.versionJson (VersionInfo.release tag curPub saved))) →
        fromisoformatUTC (pyReplaceZ curPub.toList) = some ct →
        fromisoformatUTC (pyReplaceZ rel.published_at.toList) = some ct →
        needs_update d (Latest.release rel) InfoType.release = Except.ok false) := by
  refine ⟨?_, ?_, ?_, ?_⟩
  · intro d latest t h
    simp [needs_update, get_version_info, h]
  · intro d cur latest t hgv hne
    simp [needs_update, hgv, hne]
  · intro d tag curPub saved rel ct lt hlk hct hlt
    have hgv : get_version_info d =
        some (Except.ok (VersionInfo.release tag curPub saved)) := by
      simp [get_version_info, hlk]
    simp only [String.toList] at hct hlt
    simp [needs_update, hgv, infoTypeOf, hct, hlt]
  · intro d tag curPub saved rel ct hlk hct hlt
    have hgv : get_version_info d =
        some (Except.ok (VersionInfo.release tag curPub saved)) := by
      simp [get_version_info, hlk]
    simp only [String.toList] at hct hlt
    simp [needs_update, hgv, infoTypeOf, hct, hlt, dtLt_irrefl]

/-- A ledger directory holding one synced release, used to instantiate theorems. -/
def wRelLedger : TargetDir :=
  [(version_file_name,
    FsEntry.file (FileData.versionJson (VersionInfo.release "v1" "2024-01-01T00:00:00Z" [])))]

/-- A concrete action candidate used to instantiate theorems. -/
def wAct : ActionInfo := ActionInfo.mk 3 8 "2024-01-02T00:00:00Z" "2024-01-02T00:10:00Z" [] "build"

/-- Witness for C1: a missing ledger forces an update; a kind change forces an
update; a strictly later candidate instant updates and an equal one does not. -/
theorem needs_update_release_spec_witness :
    needs_update [] (Latest.release (Release.mk "v2" "2024-01-02T00:00:00Z" []))
      InfoType.release = Except.ok true ∧
    needs_update wRelLedger (Latest.action wAct) InfoType.action = Except.ok true ∧
    needs_update wRelLedger (Latest.release (Release.mk "v2" "2024-01-02T00:00:00Z" []))
      InfoType.release = Except.ok true ∧
    needs_update wRelLedger (Latest.release (Release.mk "v1b" "2024-01-01T00:00:00Z" []))
      InfoType.release = Except.ok false := by
  refine ⟨?_, ?_, ?_, ?_⟩
  · exact needs_update_release_spec.1 [] _ _ rfl
  · exact needs_update_release_spec.2.1 wRelLedger
      (VersionInfo.release "v1" "2024-01-01T00:00:00Z" []) _ _ rfl (by decide)
  · exact (needs_update_release_spec.2.2.1 wRelLedger "v1" "2024-01-01T00:00:00Z" [] _
      (PyDateTime.mk 2024 1 1 0 0 0) (PyDateTime.mk 2024 1 2 0 0 0)
      (by decide) (by decide) (by decide)).mpr (by decide)
  · exact needs_update_release_spec.2.2.2 wRelLedger "v1" "2024-01-01T00:00:00Z" [] _
      (PyDateTime.mk 2024 1 1 0 0 0) (by decide) (by decide) (by decide)

/-! ## Claim C5 -/

/-- C5: for an action project with a matching-kind ledger, `needs_update` is
true exactly when the candidate's run identifier differs from the stored one;
no ordering of identifiers, run numbers or timestamps is consulted. -/
theorem action_update_iff_run_id_differs :
    ∀ (d : TargetDir) (run_id rn : Nat) (ca wn : String) (arts : List SavedFile)
      (a : ActionInfo),
      lookupEntry d version_file_name =
        some (FsEntry.file (FileData.versionJson (VersionInfo.action run_id rn ca wn arts))) →
      needs_update d (Latest.action a) InfoType.action =
        Except.ok (decide (run_id ≠ a.id)) ∧
      (needs_update d (Latest.action a) InfoType.action = Except.ok true ↔ run_id ≠ a.id) := by
  intro d run_id rn ca wn arts a hlk
  have hgv : get_version_info d =
      some (Except.ok (VersionInfo.action run_id rn ca wn arts)) := by
    simp [get_version_info, hlk]
  constructor
  · simp [needs_update, hgv, infoTypeOf]
  · simp [needs_update, hgv, infoTypeOf]

/-- A ledger directory holding one synced action run, used to instantiate theorems. -/
def wActLedger : TargetDir :=
  [(version_file_name,
    FsEntry.file (FileData.versionJson (VersionInfo.action 10 7 "2024-01-01T00:00:00Z" "build" [])))]

/-- Witness for C5: a candidate whose run identifier (3) is numerically
smaller than the stored one (10) still counts as an update. -/
theorem action_update_iff_run_id_differs_witness :
    needs_update wActLedger (Latest.action wAct) InfoType.action = Except.ok true :=
  (action_update_iff_run_id_differs wActLedger 10 7 "2024-01-01T00:00:00Z" "build" []
    wAct (by decide)).2.mpr (by decide)

/-! ## Claim C2 -/

/-- C2: whenever the update guard passes, both sync functions run the download
pass over the whole candidate list (an individual failure is skipped, the
count still covers every listed file), persist the new ledger after the pass,
and report Changed — for every download outcome, including all downloads
failing. -/
theorem sync_applies_update_and_persists_ledger :
    (∀ (dl : String → Bool) (patterns : List String) (d : TargetDir) (rel : Release),
        (lookupEntry d version_file_name = none ∨
          needs_update d (Latest.release rel) InfoType.release = Except.ok true) →
        sync_release_project (Except.ok (some rel)) dl patterns d =
          Except.ok (true, save_version_info
            (release_download_pass dl patterns rel.assets (clear_dir d)).1
            (mk_release_version_info rel)) ∧
        lookupEntry (save_version_info
            (release_download_pass dl patterns rel.assets (clear_dir d)).1
            (mk_release_version_info rel)) version_file_name =
          some (FsEntry.file (FileData.versionJson (mk_release_version_info rel))) ∧
        (release_download_pass dl patterns rel.assets (clear_dir d)).2 =
          (rel.assets.filter (fun a => should_download_asset a.name patterns &&
            dl a.browser_download_url)).length) ∧
    (∀ (dl : String → Bool) (patterns : List String) (d : TargetDir) (info : ActionInfo),
        (lookupEntry d version_file_name = none ∨
          needs_update d (Latest.action info) InfoType.action = Except.ok true) →
        sync_action_project (Except.ok (some info)) dl patterns d =
          Except.ok (true, save_version_info
            (action_download_pass dl patterns info.artifacts (clear_dir d)).1
            (mk_action_version_info info)) ∧
        lookupEntry (save_version_info
            (action_download_pass dl patterns info.artifacts (clear_dir d)).1
            (mk_action_version_info info)) version_file_name =
          some (FsEntry.file (FileData.versionJson (mk_action_version_info info))) ∧
        (action_download_pass dl patterns info.artifacts (clear_dir d)).2 =
          (info.artifacts.filter (fun a => should_download_asset a.name patterns &&
            dl a.archive_download_url)).length) := by
  constructor
  · intro dl patterns d rel h
    have hg := sync_guard_true_of d (Latest.release rel) InfoType.release h
    refine ⟨?_, ?_, ?_⟩
    · simp [sync_release_project, hg]
    · exact lookup_setEntry_self _ _ _
    · exact release_pass_count dl patterns rel.assets (clear_dir d)
  · intro dl patterns d info h
    have hg := sync_guard_true_of d (Latest.action info) InfoType.action h
    refine ⟨?_, ?_, ?_⟩
    · simp [sync_action_project, hg]
    · exact lookup_setEntry_self _ _ _
    · exact action_pass_count dl patterns info.artifacts (clear_dir d)

/-- A concrete release candidate with one asset, used to instantiate theorems. -/
def wRel : Release :=
  Release.mk "v1.2.0" "2024-01-01T00:00:00Z" [Asset.mk "app.apk" 100 "https-app-apk"]

/-- Witness for C2: syncing into an empty directory with every download
failing still reports Changed, persists the candidate's ledger, and counts
zero successful downloads. -/
theorem sync_applies_update_and_persists_ledger_witness :
    sync_release_project (Except.ok (some wRel)) (fun _ => false) default_patterns [] =
      Except.ok (true, save_version_info
        (release_download_pass (fun _ => false) default_patterns wRel.assets (clear_dir [])).1
        (mk_release_version_info wRel)) ∧
    (release_download_pass (fun _ => false) default_patterns wRel.assets (clear_dir [])).2 = 0 := by
  have h := sync_applies_update_and_persists_ledger.1 (fun _ => false) default_patterns []
    wRel (Or.inl rfl)
  refine ⟨h.1, ?_⟩
  rw [h.2.2]
  decide

/-! ## Claim C3 -/

/-- C3: the directory reset keeps the ledger entry exactly and removes every
other entry; on the update path both sync functions reset first (the download
pass and the ledger save run on the reset directory), and on the no-update
path the directory is returned untouched — no reset, no write. -/
theorem directory_reset_preserves_ledger_only :
    (∀ d : TargetDir,
        lookupEntry (clear_dir d) version_file_name = lookupEntry d version_file_name) ∧
    (∀ (d : TargetDir) (n : String), n ≠ version_file_name →
        lookupEntry (clear_dir d) n = none) ∧
    (∀ (dl : String → Bool) (patterns : List String) (d : TargetDir) (rel : Release),
        sync_guard d (Latest.release rel) InfoType.release = Except.ok true →
        sync_release_project (Except.ok (some rel)) dl patterns d =
          Except.ok (true, save_version_info
            (release_download_pass dl patterns rel.assets (clear_dir d)).1
            (mk_release_version_info rel))) ∧
    (∀ (dl : String → Bool) (patterns : List String) (d : TargetDir) (rel : Release),
        sync_guard d (Latest.release rel) InfoType.release = Except.ok false →
        sync_release_project (Except.ok (some rel)) dl patterns d = Except.ok (false, d)) ∧
    (∀ (dl : String → Bool) (patterns : List String) (d : TargetDir) (info : ActionInfo),
        sync_guard d (Latest.action info) InfoType.action = Except.ok true →
        sync_action_project (Except.ok (some info)) dl patterns d =
          Except.ok (true, save_version_info
            (action_download_pass dl patterns info.artifacts (clear_dir d)).1
            (mk_action_version_info info))) ∧
    (∀ (dl : String → Bool) (patterns : List String) (d : TargetDir) (info : ActionInfo),
        sync_guard d (Latest.action info) InfoType.action = Except.ok false →
        sync_action_project (Except.ok (some info)) dl patterns d = Except.ok (false, d)) := by
  refine ⟨lookup_clear_dir_ledger, lookup_clear_dir_other, ?_, ?_, ?_, ?_⟩
  · intro dl patterns d rel hg
    simp [sync_release_project, hg]
  · intro dl patterns d rel hg
    simp [sync_release_project, hg]
  · intro dl patterns d info hg
    simp [sync_action_project, hg]
  · intro dl patterns d info hg
    simp [sync_action_project, hg]

/-- A directory with a ledger, a stale file and a stale subdirectory. -/
def wDirtyDir : TargetDir :=
  [("old.apk", FsEntry.file (FileData.blob "https-old")),
   (version_file_name,
    FsEntry.file (FileData.versionJson (VersionInfo.release "v1" "2024-01-01T00:00:00Z" []))),
   ("nested", FsEntry.dir)]

/-- Witness for C3: resetting a dirty directory keeps exactly the ledger, and
a false guard leaves the directory untouched with an Unchanged verdict. -/
theorem directory_reset_preserves_ledger_only_witness :
    lookupEntry (clear_dir wDirtyDir) version_file_name =
      lookupEntry wDirtyDir version_file_name ∧
    lookupEntry (clear_dir wDirtyDir) "old.apk" = none ∧
    lookupEntry (clear_dir wDirtyDir) "nested" = none ∧
    sync_release_project (Except.ok (some wRel)) (fun _ => true) default_patterns
      wRelLedger = Except.ok (false, wRelLedger) := by
  refine ⟨directory_reset_preserves_ledger_only.1 wDirtyDir,
    directory_reset_preserves_ledger_only.2.1 wDirtyDir "old.apk" (by decide),
    directory_reset_preserves_ledger_only.2.1 wDirtyDir "nested" (by decide),
    directory_reset_preserves_ledger_only.2.2.2.1 (fun _ => true) default_patterns
      wRelLedger wRel ?_⟩
  rfl

/-! ## Claim C10 -/

/-- C10: a release candidate that passes the guard is fully adopted even when
none of its assets is selected (in particular when its asset list is empty):
the directory is reset, zero files are downloaded, the ledger is overwritten
with the candidate and the sync reports Changed — whereas on the action path
an empty artifact list already yields no candidate at the adapter and the
sync of an absent candidate reports Unchanged without touching anything. -/
theorem release_adopts_candidate_with_no_matching_assets :
    (∀ (dl : String → Bool) (patterns : List String) (d : TargetDir) (rel : Release),
        (∀ a ∈ rel.assets, should_download_asset a.name patterns = false) →
        (lookupEntry d version_file_name = none ∨
          needs_update d (Latest.release rel) InfoType.release = Except.ok true) →
        sync_release_project (Except.ok (some rel)) dl patterns d =
          Except.ok (true, save_version_info (clear_dir d) (mk_release_version_info rel)) ∧
        (release_download_pass dl patterns rel.assets (clear_dir d)).2 = 0 ∧
        lookupEntry (save_version_info (clear_dir d) (mk_release_version_info rel))
            version_file_name =
          some (FsEntry.file (FileData.versionJson (mk_release_version_info rel)))) ∧
    (∀ (up : Upstream) (wf : Option String) (run : WorkflowRun) (rest : List WorkflowRun),
        (up.runs_response (runs_params wf)).status_code = 200 →
        (up.runs_response (runs_params wf)).body = some (run :: rest) →
        (up.artifacts_response run.artifacts_url).status_code = 200 →
        (up.artifacts_response run.artifacts_url).body = some [] →
        get_latest_action_artifact up wf = Except.ok none) ∧
    (∀ (dl : String → Bool) (patterns : List String) (d : TargetDir),
        sync_action_project (Except.ok none) dl patterns d = Except.ok (false, d)) := by
  refine ⟨?_, ?_, ?_⟩
  · intro dl patterns d rel hno h
    have hg := sync_guard_true_of d (Latest.release rel) InfoType.release h
    have hpass := release_pass_nomatch dl patterns rel.assets (clear_dir d) hno
    refine ⟨?_, ?_, lookup_setEntry_self _ _ _⟩
    · simp [sync_release_project, hg, hpass]
    · simp [hpass]
  · intro up wf run rest h1 h2 h3 h4
    simp [get_latest_action_artifact, response_json, h1, h2, h3, h4]
  · intro dl patterns d
    simp [sync_action_project]

/-- A release candidate whose only asset matches no configured pattern. -/
def wRelNoMatch : Release :=
  Release.mk "v2.0.0" "2024-02-01T00:00:00Z" [Asset.mk "readme.txt" 5 "https-readme"]

/-- Witness for C10: with patterns selecting nothing, a guarded release sync
still resets, downloads nothing, overwrites the ledger and reports Changed;
an absent action candidate reports Unchanged. -/
theorem release_adopts_candidate_with_no_matching_assets_witness :
    sync_release_project (Except.ok (some wRelNoMatch)) (fun _ => true) ["app-*.apk"]
      wDirtyDir =
      Except.ok (true, save_version_info (clear_dir wDirtyDir)
        (mk_release_version_info wRelNoMatch)) ∧
    (release_download_pass (fun _ => true) ["app-*.apk"] wRelNoMatch.assets
      (clear_dir wDirtyDir)).2 = 0 ∧
    sync_action_project (Except.ok none) (fun _ => true) ["app-*.apk"] wDirtyDir =
      Except.ok (false, wDirtyDir) := by
  have h := release_adopts_candidate_with_no_matching_assets.1 (fun _ => true)
    ["app-*.apk"] wDirtyDir wRelNoMatch (by decide) (Or.inr rfl)
  exact ⟨h.1, h.2.1,
    release_adopts_candidate_with_no_matching_assets.2.2 (fun _ => true)
      ["app-*.apk"] wDirtyDir⟩

/-! ## Claim C6 -/

/-- C6: with the upstream candidate unchanged, a second sync right after any
first one reports Unchanged and leaves the directory — the ledger included —
exactly as the first run left it (no reset, no download, no write); and a
first run that already reported Unchanged had also left the directory
untouched, so from an up-to-date state both runs report Unchanged. For the
release path the candidate's timestamp is assumed parseable (an unparsable
one raises instead of syncing). -/
theorem sync_second_run_unchanged :
    (∀ (dl : String → Bool) (patterns : List String) (d : TargetDir) (rel : Release)
        (r1 : Bool) (d1 : TargetDir) (t : PyDateTime),
        fromisoformatUTC (pyReplaceZ rel.published_at.toList) = some t →
        sync_release_project (Except.ok (some rel)) dl patterns d = Except.ok (r1, d1) →
        sync_release_project (Except.ok (some rel)) dl patterns d1 = Except.ok (false, d1) ∧
        (r1 = false → d1 = d)) ∧
    (∀ (dl : String → Bool) (patterns : List String) (d : TargetDir) (info : ActionInfo)
        (r1 : Bool) (d1 : TargetDir),
        sync_action_project (Except.ok (some info)) dl patterns d = Except.ok (r1, d1) →
        sync_action_project (Except.ok (some info)) dl patterns d1 = Except.ok (false, d1) ∧
        (r1 = false → d1 = d)) := by
  constructor
  · intro dl patterns d rel r1 d1 t hp h1
    cases hg : sync_guard d (Latest.release rel) InfoType.release with
    | error e => simp [sync_release_project, hg] at h1
    | ok b =>
      cases b with
      | false =>
        simp [sync_release_project, hg] at h1
        obtain ⟨hr, hd⟩ := h1
        subst hr
        subst hd
        exact ⟨by simp [sync_release_project, hg], fun _ => rfl⟩
      | true =>
        simp [sync_release_project, hg] at h1
        obtain ⟨hr, hd⟩ := h1
        subst hr
        subst hd
        have hlk : lookupEntry (save_version_info
            (release_download_pass dl patterns rel.assets (clear_dir d)).1
            (mk_release_version_info rel)) version_file_name =
            some (FsEntry.file (FileData.versionJson (mk_release_version_info rel))) :=
          lookup_setEntry_self _ _ _
        have hgv := get_version_info_save
          (release_download_pass dl patterns rel.assets (clear_dir d)).1
          (mk_release_version_info rel)
        have hnu : needs_update (save_version_info
            (release_download_pass dl patterns rel.assets (clear_dir d)).1
            (mk_release_version_info rel)) (Latest.release rel) InfoType.release =
            Except.ok false := by
          simp only [String.toList] at hp
          simp only [mk_release_version_info] at hgv ⊢
          simp [needs_update, hgv, infoTypeOf, hp, dtLt_irrefl]
        have hg1 : sync_guard (save_version_info
            (release_download_pass dl patterns rel.assets (clear_dir d)).1
            (mk_release_version_info rel)) (Latest.release rel) InfoType.release =
            Except.ok false := by
          simp [sync_guard, hlk, hnu]
        refine ⟨by simp [sync_release_project, hg1], ?_⟩
        intro hf
        simp at hf
  · intro dl patterns d info r1 d1 h1
    cases hg : sync_guard d (Latest.action info) InfoType.action with
    | error e => simp [sync_action_project, hg] at h1
    | ok b =>
      cases b with
      | false =>
        simp [sync_action_project, hg] at h1
        obtain ⟨hr, hd⟩ := h1
        subst hr
        subst hd
        exact ⟨by simp [sync_action_project, hg], fun _ => rfl⟩
      | true =>
        simp [sync_action_project, hg] at h1
        obtain ⟨hr, hd⟩ := h1
        subst hr
        subst hd
        have hlk : lookupEntry (save_version_info
            (action_download_pass dl patterns info.artifacts (clear_dir d)).1
            (mk_action_version_info info)) version_file_name =
            some (FsEntry.file (FileData.versionJson (mk_action_version_info info))) :=
          lookup_setEntry_self _ _ _
        have hgv := get_version_info_save
          (action_download_pass dl patterns info.artifacts (clear_dir d)).1
          (mk_action_version_info info)
        have hnu : needs_update (save_version_info
            (action_download_pass dl patterns info.artifacts (clear_dir d)).1
            (mk_action_version_info info)) (Latest.action info) InfoType.action =
            Except.ok false := by
          simp only [mk_action_version_info] at hgv ⊢
          simp [needs_update, hgv, infoTypeOf]
        have hg1 : sync_guard (save_version_info
            (action_download_pass dl patterns info.artifacts (clear_dir d)).1
            (mk_action_version_info info)) (Latest.action info) InfoType.action =
            Except.ok false := by
          simp [sync_guard, hlk, hnu]
        refine ⟨by simp [sync_action_project, hg1], ?_⟩
        intro hf
        simp at hf

/-- The directory state left by a first sync of `wRel` into an empty directory. -/
def wSyncedDir : TargetDir :=
  [(version_file_name, FsEntry.file (FileData.versionJson (mk_release_version_info wRel)))]

/-- Witness for C6: after a first sync of `wRel` into an empty directory (all
downloads failing), a second sync with the identical candidate reports
Unchanged and returns the directory unmodified. -/
theorem sync_second_run_unchanged_witness :
    sync_release_project (Except.ok (some wRel)) (fun _ => false) default_patterns
      wSyncedDir = Except.ok (false, wSyncedDir) :=
  (sync_second_run_unchanged.1 (fun _ => false) default_patterns [] wRel true wSyncedDir
    (PyDateTime.mk 2024 1 1 0 0 0) (by decide) (by rfl)).1

/-! ## Claim C7 -/

/-- An upstream whose every response has success status but a malformed body. -/
def wBadUpstream : Upstream :=
  Upstream.mk (fun _ => Response.mk 200 none) (fun _ => Response.mk 200 none)

/-- C7, counterexample: on a success status with a malformed body, both
adapter paths raise a JSON decode error past the adapter boundary instead of
returning an absent candidate. -/
theorem release_adapter_error_on_malformed_body :
    get_latest_release (Response.mk 200 none) (Response.mk 200 none) true =
      Except.error errJSONDecode ∧
    get_latest_release (Response.mk 200 none) (Response.mk 200 none) false =
      Except.error errJSONDecode ∧
    get_latest_action_artifact wBadUpstream none = Except.error errJSONDecode :=
  ⟨rfl, rfl, rfl⟩

/-- C7, amended: both adapter paths return an absent candidate, with a
diagnostic, on a non-success status (and, on the action path, on an empty run
or artifact list), and return without raising whenever the consulted bodies
are well formed; a malformed body on a success status, however, raises a
JSON decode error past the adapter, to be caught at the batch boundary. -/
theorem adapter_failure_behavior :
    (∀ (rls : Response (List Release)) (rlat : Response Release),
        rls.status_code ≠ 200 → get_latest_release rls rlat true = Except.ok none) ∧
    (∀ (rls : Response (List Release)) (rlat : Response Release),
        rlat.status_code ≠ 200 → get_latest_release rls rlat false = Except.ok none) ∧
    (∀ (rls : Response (List Release)) (rlat : Response Release) (pre : Bool),
        (pre = true → rls.body.isSome) → (pre = false → rlat.body.isSome) →
        ∃ r, get_latest_release rls rlat pre = Except.ok r) ∧
    (∀ (rls : Response (List Release)) (rlat : Response Release),
        rls.status_code = 200 → rls.body = none →
        get_latest_release rls rlat true = Except.error errJSONDecode) ∧
    (∀ (rls : Response (List Release)) (rlat : Response Release),
        rlat.status_code = 200 → rlat.body = none →
        get_latest_release rls rlat false = Except.error errJSONDecode) ∧
    (∀ (up : Upstream) (wf : Option String),
        (up.runs_response (runs_params wf)).status_code ≠ 200 →
        get_latest_action_artifact up wf = Except.ok none) ∧
    (∀ (up : Upstream) (wf : Option String),
        (up.runs_response (runs_params wf)).status_code = 200 →
        (up.runs_response (runs_params wf)).body = some [] →
        get_latest_action_artifact up wf = Except.ok none) ∧
    (∀ (up : Upstream) (wf : Option String) (run : WorkflowRun) (rest : List WorkflowRun),
        (up.runs_response (runs_params wf)).status_code = 200 →
        (up.runs_response (runs_params wf)).body = some (run :: rest) →
        (up.artifacts_response run.artifacts_url).status_code ≠ 200 →
        get_latest_action_artifact up wf = Except.ok none) ∧
    (∀ (up : Upstream) (wf : Option String),
        (up.runs_response (runs_params wf)).status_code = 200 →
        (up.runs_response (runs_params wf)).body = none →
        get_latest_action_artifact up wf = Except.error errJSONDecode) ∧
    (∀ (up : Upstream) (wf : Option String) (run : WorkflowRun) (rest : List WorkflowRun),
        (up.runs_response (runs_params wf)).status_code = 200 →
        (up.runs_response (runs_params wf)).body = some (run :: rest) →
        (up.artifacts_response run.artifacts_url).status_code = 200 →
        (up.artifacts_response run.artifacts_url).body = none →
        get_latest_action_artifact up wf = Except.error errJSONDecode) := by
  refine ⟨?_, ?_, ?_, ?_, ?_, ?_, ?_, ?_, ?_, ?_⟩
  · intro rls rlat h
    simp [get_latest_release, h]
  · intro rls rlat h
    simp [get_latest_release, h]
  · intro rls rlat pre h1 h2
    cases pre with
    | true =>
      rcases hb : rls.body with _ | b
      · simp [hb] at h1
      · by_cases hs : rls.status_code = 200
        · cases b with
          | nil => exact ⟨none, by simp [get_latest_release, hs, response_json, hb]⟩
          | cons r t => exact ⟨some r, by simp [get_latest_release, hs, response_json, hb]⟩
        · exact ⟨none, by simp [get_latest_release, hs]⟩
    | false =>
      rcases hb : rlat.body with _ | b
      · simp [hb] at h2
      · by_cases hs : rlat.status_code = 200
        · exact ⟨some b, by simp [get_latest_release, hs, response_json, hb]⟩
        · exact ⟨none, by simp [get_latest_release, hs]⟩
  · intro rls rlat h1 h2
    simp [get_latest_release, h1, response_json, h2]
  · intro rls rlat h1 h2
    simp [get_latest_release, h1, response_json, h2]
  · intro up wf h
    simp [get_latest_action_artifact, h]
  · intro up wf h1 h2
    simp [get_latest_action_artifact, h1, response_json, h2]
  · intro up wf run rest h1 h2 h3
    simp [get_latest_action_artifact, h1, response_json, h2, h3]
  · intro up wf h1 h2
    simp [get_latest_action_artifact, h1, response_json, h2]
  · intro up wf run rest h1 h2 h3 h4
    simp [get_latest_action_artifact, h1, response_json, h2, h3, h4]

/-- Witness for the amended C7: a failing status yields an absent candidate on
both paths, and a well-formed empty list yields an absent candidate. -/
theorem adapter_failure_behavior_witness :
    get_latest_release (Response.mk 404 none) (Response.mk 404 none) true =
      Except.ok none ∧
    get_latest_release (Response.mk 404 none) (Response.mk 404 none) false =
      Except.ok none ∧
    get_latest_release (Response.mk 200 (some [])) (Response.mk 404 none) true =
      Except.ok none := by
  refine ⟨adapter_failure_behavior.1 (Response.mk 404 none) (Response.mk 404 none)
      (by decide), ?_, ?_⟩
  · exact adapter_failure_behavior.2.1 (Response.mk 404 none) (Response.mk 404 none)
      (by decide)
  · obtain ⟨r, hr⟩ := adapter_failure_behavior.2.2.1 (Response.mk 200 (some []))
      (Response.mk 404 none) true (fun _ => rfl) (fun h => by cases h)
    have : r = none := by
      have := hr.symm.trans (rfl : get_latest_release (Response.mk 200 (some []))
        (Response.mk 404 none) true = Except.ok none)
      exact (Except.ok.injEq _ _).mp this.symm ▸ rfl
    rw [this] at hr
    exact hr

/-! ## Claim C9 -/

/-- A workflow run belonging to a workflow other than the configured filter. -/
def wRunOther : WorkflowRun :=
  WorkflowRun.mk 555 12 "2024-01-02T00:00:00Z" "2024-01-02T00:10:00Z"
    "https-run" "other-workflow" "https-artifacts"

/-- One artifact of that run. -/
def wArtifactOther : Artifact := Artifact.mk "core-artifact" 1000 "https-artifact-dl"

/-- An upstream that answers the push-event completed-runs query with the
other-workflow run; any other query fails. -/
def wUpstreamOther : Upstream :=
  Upstream.mk
    (fun p => if p = RunsParams.mk "completed" 5 (some "push")
      then Response.mk 200 (some [wRunOther]) else Response.mk 404 none)
    (fun _ => Response.mk 200 (some [wArtifactOther]))

/-- C9: the workflow filter's value is ignored — any two tokens produce the
identical runs query, which narrows only to completed push-event runs and
never mentions the workflow — and with the filter core.yml supplied the
adapter still adopts the newest completed push-event run of a different
workflow. -/
theorem workflow_filter_token_ignored :
    (∀ w1 w2 : String, runs_params (some w1) = runs_params (some w2)) ∧
    runs_params (some "core.yml") = RunsParams.mk "completed" 5 (some "push") ∧
    get_latest_action_artifact wUpstreamOther (some "core.yml") =
      Except.ok (some (ActionInfo.mk 555 12 "2024-01-02T00:00:00Z"
        "2024-01-02T00:10:00Z" [wArtifactOther] "other-workflow")) ∧
    wRunOther.name ≠ "core.yml" :=
  ⟨fun _ _ => rfl, rfl, rfl, by decide⟩

/-! ## Claim C8 -/

/-- The updated-projects list is empty exactly when no project's sync
reported Changed. -/
theorem batch_updated_nil_iff (ps : List ProjectState) :
    batch_updated ps = [] ↔ ¬ ∃ p ∈ ps, ∃ d, sync_project p = Except.ok (true, d) := by
  induction ps with
  | nil => simp [batch_updated]
  | cons p rest ih =>
    cases hsp : sync_project p with
    | error e =>
      simp only [batch_updated, hsp, ih]
      constructor
      · intro h hex
        rcases hex with ⟨q, hq, dq, hdq⟩
        rcases List.mem_cons.mp hq with hq | hq
        · subst hq; rw [hsp] at hdq; cases hdq
        · exact h ⟨q, hq, dq, hdq⟩
      · intro h hex
        rcases hex with ⟨q, hq, dq, hdq⟩
        exact h ⟨q, List.mem_cons_of_mem p hq, dq, hdq⟩
    | ok pr =>
      obtain ⟨b, dres⟩ := pr
      cases b with
      | true =>
        simp only [batch_updated, hsp]
        constructor
        · intro h; cases h
        · intro h
          exact absurd ⟨p, List.mem_cons_self p rest, dres, hsp⟩ h
      | false =>
        simp only [batch_updated, hsp, ih]
        constructor
        · intro h hex
          rcases hex with ⟨q, hq, dq, hdq⟩
          rcases List.mem_cons.mp hq with hq | hq
          · subst hq; rw [hsp] at hdq; simp at hdq
          · exact h ⟨q, hq, dq, hdq⟩
        · intro h hex
          rcases hex with ⟨q, hq, dq, hdq⟩
          exact h ⟨q, List.mem_cons_of_mem p hq, dq, hdq⟩

/-- C8: the process exit status is the distinguished updates-occurred value 1
exactly when at least one project's sync reported Changed, and 0 exactly
otherwise; a project whose sync raises is caught, contributes nothing to the
updated list, and the batch continues with the remaining projects. -/
theorem batch_exit_status_spec :
    (∀ ps : List ProjectState,
        (main_exit ps = 1 ↔ ∃ p ∈ ps, ∃ d, sync_project p = Except.ok (true, d)) ∧
        (main_exit ps = 0 ↔ ¬ ∃ p ∈ ps, ∃ d, sync_project p = Except.ok (true, d))) ∧
    (∀ (p : ProjectState) (rest : List ProjectState) (e : String),
        sync_project p = Except.error e →
        batch_updated (p :: rest) = batch_updated rest ∧
        main_exit (p :: rest) = main_exit rest) := by
  constructor
  · intro ps
    constructor
    · constructor
      · intro h
        by_contra hn
        have := (batch_updated_nil_iff ps).mpr hn
        simp [main_exit, this] at h
      · intro h
        have hne : ¬ batch_updated ps = [] := fun hnil =>
          (batch_updated_nil_iff ps).mp hnil h
        simp [main_exit, hne]
    · constructor
      · intro h
        by_cases hnil : batch_updated ps = []
        · exact (batch_updated_nil_iff ps).mp hnil
        · simp [main_exit, hnil] at h
      · intro h
        have := (batch_updated_nil_iff ps).mpr h
        simp [main_exit, this]
  · intro p rest e hsp
    constructor
    · simp [batch_updated, hsp]
    · simp [main_exit, batch_updated, hsp]

/-- A project whose release fetch raises (for instance a malformed body). -/
def wErrProject : ProjectState :=
  ProjectState.mk (ProjectConfig.mk "broken" none none)
    (Except.error errJSONDecode) (Except.ok none) (fun _ => false) []

/-- A release project whose sync applies an update. -/
def wChangedProject : ProjectState :=
  ProjectState.mk (ProjectConfig.mk "demo" none none)
    (Except.ok (some wRel)) (Except.ok none) (fun _ => false) []

/-- Witness for C8: a raising project is skipped without stopping the batch,
and a batch holding one raising and one changed project exits with status 1. -/
theorem batch_exit_status_spec_witness :
    batch_updated [wErrProject, wChangedProject] = batch_updated [wChangedProject] ∧
    main_exit [wErrProject, wChangedProject] = 1 := by
  constructor
  · exact (batch_exit_status_spec.2 wErrProject [wChangedProject] errJSONDecode rfl).1
  · exact ((batch_exit_status_spec.1 [wErrProject, wChangedProject]).1).mpr
      ⟨wChangedProject, by simp, wSyncedDir, rfl⟩
